import Mathlib

/-!
Verification of the water-rendering demo (Scene.cpp, Common.h, Common.hlsli,
WaterSurface vertex shader, RefractedPixelLighting pixel shader) through a
shallow embedding.  Shader arithmetic is embedded over `ℚ` (the source's
float constants 0.5, 1.7, 2.6, 0.25 ... are all exactly representable);
texture sampling, which is external data, is abstracted as a function from
UV coordinates to values.
-/

namespace Water

/-- 2D vector of rationals (CVector2 / HLSL float2). -/
structure Vec2 where
  x : ℚ
  y : ℚ
deriving DecidableEq

/-- Componentwise addition (`+` on float2). -/
def Vec2.add (a b : Vec2) : Vec2 := ⟨a.x + b.x, a.y + b.y⟩

/-- Scalar multiplication (`s * v` on float2). -/
def Vec2.scale (s : ℚ) (v : Vec2) : Vec2 := ⟨s * v.x, s * v.y⟩

/-- 3D vector of rationals (CVector3 / HLSL float3). -/
structure Vec3 where
  x : ℚ
  y : ℚ
  z : ℚ
deriving DecidableEq

/-! Water constants from Common.hlsli (src/unnamed/part_001 lines 19-48). -/

/-- Common.hlsli: `MaxDistortionDistance = 40`. -/
def MaxDistortionDistance : ℚ := 40

/-- Common.hlsli: `WaterExtinction = float3(9,7,3)` (flood water). -/
def WaterExtinction : Vec3 := ⟨9, 7, 3⟩

/-- Common.hlsli: `WaterDiffuseLevel = 0.5f`. -/
def WaterDiffuseLevel : ℚ := 1/2

/-- Common.hlsli: `WaterSize1 = 0.5f`. -/
def WaterSize1 : ℚ := 1/2

/-- Common.hlsli: `WaterSize2 = 1.0f`. -/
def WaterSize2 : ℚ := 1

/-- Common.hlsli: `WaterSize3 = 2.0f`. -/
def WaterSize3 : ℚ := 2

/-- Common.hlsli: `WaterSize4 = 4.0f`. -/
def WaterSize4 : ℚ := 4

/-- Common.hlsli: `WaterSpeed1 = 0.5f`. -/
def WaterSpeed1 : ℚ := 1/2

/-- Common.hlsli: `WaterSpeed2 = 1.0f`. -/
def WaterSpeed2 : ℚ := 1

/-- Common.hlsli: `WaterSpeed3 = 1.7f`. -/
def WaterSpeed3 : ℚ := 17/10

/-- Common.hlsli: `WaterSpeed4 = 2.6f`. -/
def WaterSpeed4 : ℚ := 26/10

/-- Common.hlsli: `HeightMapHeightOverWidth = 1 / 32.0f`. -/
def HeightMapHeightOverWidth : ℚ := 1 / 32

/-- Common.hlsli: `WaterWidth = 400.0f`. -/
def WaterWidth : ℚ := 400

/-- Common.hlsli: `MaxWaveHeight = WaterWidth * HeightMapHeightOverWidth`. -/
def MaxWaveHeight : ℚ := WaterWidth * HeightMapHeightOverWidth

/-- HLSL `saturate`: clamp a scalar to [0,1]. -/
def saturate (v : ℚ) : ℚ := max 0 (min 1 v)

/-- HLSL `lerp(a, b, t) = a + t*(b - a)`. -/
def lerp (a b t : ℚ) : ℚ := a + t * (b - a)

/-!  C1: the WaterSurface vertex shader's Y displacement (Shader.h, vertex
shader `main`, lines 118-128).  `tex uv` abstracts
`NormalHeightMap.SampleLevel(StandardFilter, uv, 0).a` (the alpha channel of
the height/normal texture at a UV coordinate). -/

/-- The model-space Y coordinate produced by the WaterSurface vertex shader:
four alpha samples of the height map at the four size/speed pairs are summed
and `(0.25 * height - 0.5) * MaxWaveHeight * gWaveScale` is added to the
input vertex's Y. -/
def waterSurfaceVertexY (tex : Vec2 → ℚ) (inputUV gWaterMovement : Vec2)
    (gWaveScale modelPositionY : ℚ) : ℚ :=
  let waterUV := inputUV
  let normal1 := tex (Vec2.scale WaterSize1 (Vec2.add waterUV (Vec2.scale WaterSpeed1 gWaterMovement)))
  let normal2 := tex (Vec2.scale WaterSize2 (Vec2.add waterUV (Vec2.scale WaterSpeed2 gWaterMovement)))
  let normal3 := tex (Vec2.scale WaterSize3 (Vec2.add waterUV (Vec2.scale WaterSpeed3 gWaterMovement)))
  let normal4 := tex (Vec2.scale WaterSize4 (Vec2.add waterUV (Vec2.scale WaterSpeed4 gWaterMovement)))
  let height := normal1 + normal2 + normal3 + normal4
  modelPositionY + (1/4 * height - 1/2) * MaxWaveHeight * gWaveScale

/-- The four octave (spatial scale, UV scroll speed) pairs exactly as the
spec lists them: scales {0.5, 1.0, 2.0, 4.0} paired one-to-one with speeds
{0.5, 1.0, 1.7, 2.6}. -/
def specOctaves : List (ℚ × ℚ) := [(1/2, 1/2), (1, 1), (2, 17/10), (4, 26/10)]

/-- The wave-height-field vertex offset as worded by the spec: sample the
height texture once per octave at `scale * (uv + movement * speed)`, sum the
four heights, multiply by 0.25, subtract 0.5, multiply by MaxWaveHeight and
the current wave scale. -/
def specWaveOffset (tex : Vec2 → ℚ) (uv movement : Vec2) (waveScale : ℚ) : ℚ :=
  ((specOctaves.map fun p =>
      tex (Vec2.scale p.1 (Vec2.add uv (Vec2.scale p.2 movement)))).sum
    * (1/4) - 1/2) * MaxWaveHeight * waveScale

/-!  C2-C4: the RefractedPixelLighting pixel shader `main`
(src/unnamed/part_001 lines 193-221). -/

/-- The per-channel underwater darken factor of the refraction shader
(part_001 line 216): `saturate(objectDepth / WaterExtinction)`, applied to
each colour channel of the extinction constant independently. -/
def depthDarken (objectDepth : ℚ) : Vec3 :=
  ⟨saturate (objectDepth / WaterExtinction.x),
   saturate (objectDepth / WaterExtinction.y),
   saturate (objectDepth / WaterExtinction.z)⟩

/-- The RefractedPixelLighting pixel shader `main` (part_001 lines 193-221).
`heightMap uv` abstracts `WaterHeightMap.Sample(BilinearMirror, uv).x`;
`sceneColour` abstracts the `PixelLighting(input).rgb` call (external
lighting and texturing); `tintColour` abstracts the constant
`normalize(WaterExtinction) * WaterDiffuseLevel` (its normalization involves
an irrational square root; no claim reads its value).  Returns `none` when
the pixel is clipped, otherwise `some (rgb, alpha)`. -/
def refractedPixelMain (gViewportWidth gViewportHeight : ℚ)
    (heightMap : Vec2 → ℚ) (projectedXY : Vec2) (worldPositionY : ℚ)
    (sceneColour tintColour : Vec3) : Option (Vec3 × ℚ) :=
  let screenUV : Vec2 := ⟨projectedXY.x / gViewportWidth, projectedXY.y / gViewportHeight⟩
  let waterHeight := heightMap screenUV
  let objectDepth := waterHeight - worldPositionY
  if objectDepth < 0 then none
  else
    let darken := depthDarken objectDepth
    let refractionColour : Vec3 :=
      ⟨lerp sceneColour.x tintColour.x darken.x,
       lerp sceneColour.y tintColour.y darken.y,
       lerp sceneColour.z tintColour.z darken.z⟩
    some (refractionColour, saturate (objectDepth / MaxDistortionDistance))

/-- The object depth computed by the refraction shader (part_001 lines
196-198): the sampled water height at the pixel's screen UV minus the
pixel's world Y. -/
def objectDepthOf (gViewportWidth gViewportHeight : ℚ) (heightMap : Vec2 → ℚ)
    (projectedXY : Vec2) (worldPositionY : ℚ) : ℚ :=
  heightMap ⟨projectedXY.x / gViewportWidth, projectedXY.y / gViewportHeight⟩ - worldPositionY

/-!  C5-C6: the camera reflection in RenderSceneFromCamera
(src/unnamed/part_002 lines 554-599).  A camera's world matrix holds the
three basis axes and the position (the matrix rows the code mutates through
`XAxis()`, `YAxis()`, `ZAxis()` and `Position()`). -/

/-- A camera world matrix: three basis axes plus position. -/
structure CameraPose where
  xAxis : Vec3
  yAxis : Vec3
  zAxis : Vec3
  position : Vec3
deriving DecidableEq

/-- Negate the Y component of a vector (`v.y *= -1`). -/
def negYComponent (v : Vec3) : Vec3 := ⟨v.x, -v.y, v.z⟩

/-- Overwrite the Y component of a vector (`v.y = t`). -/
def setYComponent (v : Vec3) (t : ℚ) : Vec3 := ⟨v.x, t, v.z⟩

/-- The camera reflection transform of RenderSceneFromCamera lines 558-566:
negate the Y component of each of the three basis axes, and replace the
position's Y by `waterY * 2 - position.y`. -/
def reflectCameraMatrix (waterY : ℚ) (m : CameraPose) : CameraPose :=
  { xAxis := negYComponent m.xAxis
    yAxis := negYComponent m.yAxis
    zAxis := negYComponent m.zAxis
    position := setYComponent m.position (waterY * 2 - m.position.y) }

/-- A camera as the reflection pass sees it: the mutable world matrix plus
whatever further state the Camera class carries (projection parameters,
clip distances ...), abstracted as a type parameter, untouched by the pass. -/
structure CameraState (A : Type) where
  world : CameraPose
  rest : A

/-- The effect of the reflection section of RenderSceneFromCamera (part_002
lines 558-599) on the camera, step by step: save `originalMatrix`, negate
the Y component of each axis (lines 559-561), mirror the position's Y (line
566), render the reflected scene (which only reads the camera), then assign
the saved matrix back (line 598).  Returns the camera as later passes and
the next frame see it. -/
def reflectionPassCameraEffect {A : Type} (waterY : ℚ) (camera : CameraState A) :
    CameraState A :=
  let originalMatrix := camera.world
  let c1 : CameraState A := { camera with world := { camera.world with xAxis := negYComponent camera.world.xAxis } }
  let c2 : CameraState A := { c1 with world := { c1.world with yAxis := negYComponent c1.world.yAxis } }
  let c3 : CameraState A := { c2 with world := { c2.world with zAxis := negYComponent c2.world.zAxis } }
  let c4 : CameraState A := { c3 with world := { c3.world with
    position := setYComponent c3.world.position (waterY * 2 - c3.world.position.y) } }
  { c4 with world := originalMatrix }

/-!  C7: the wave-scale update in UpdateScene (part_002 lines 737-742). -/

/-- One frame's wave-scale update (UpdateScene lines 737-742): add
`0.5 * frameTime` while Plus is held, subtract it while Minus is held, then
clamp the accumulator at 0.  The result is both the new accumulator and the
value stored in `gPerFrameConstants.waveScale` (sent to the GPU). -/
def updateWaveScale (waveScale : ℚ) (plusHeld minusHeld : Bool) (frameTime : ℚ) : ℚ :=
  let w1 := if plusHeld then waveScale + 1/2 * frameTime else waveScale
  let w2 := if minusHeld then w1 - 1/2 * frameTime else w1
  if w2 < 0 then 0 else w2

/-- The wave-scale accumulator after a sequence of frames, each frame given
as (plus key held, minus key held, frame time).  The source initialises the
static accumulator to 0.6. -/
def runWaveScale (init : ℚ) (frames : List (Bool × Bool × ℚ)) : ℚ :=
  frames.foldl (fun w f => updateWaveScale w f.1 f.2.1 f.2.2) init

/-!  C8 and C10: the per-frame command sequence issued by
RenderSceneFromCamera (part_002 lines 477-645), modelled as a trace of
render-target, texture-binding and draw commands in source order. -/

/-- The render-target buffers of a frame. -/
inductive Buffer
  | waterHeight
  | refraction
  | reflection
  | backBuffer
deriving DecidableEq

/-- The shader-resource textures the frame binds.  The first three are views
of the corresponding render-target buffers; the rest are file-loaded
textures that are never render targets. -/
inductive Tex
  | waterHeightTex
  | refractionTex
  | reflectionTex
  | waterNormalMap
  | groundDiffuse
  | trollDiffuse
  | crateDiffuse
  | skyDiffuse
  | lightDiffuse
deriving DecidableEq

/-- The render-target buffer a texture is a view of, if any. -/
def texBuffer : Tex → Option Buffer
  | Tex.waterHeightTex => some Buffer.waterHeight
  | Tex.refractionTex => some Buffer.refraction
  | Tex.reflectionTex => some Buffer.reflection
  | _ => none

/-- The models of the scene. -/
inductive SceneModel
  | ground
  | troll
  | crate
  | sky
  | light1
  | light2
  | water
deriving DecidableEq

/-- One GPU command of the frame trace: select a render target
(OMSetRenderTargets), bind or unbind a pixel-shader or vertex-shader
texture slot (PSSetShaderResources / VSSetShaderResources), or draw a
model's mesh (Model::Render). -/
inductive Cmd
  | setTarget (b : Buffer)
  | bindTexPS (slot : Nat) (t : Option Tex)
  | bindTexVS (slot : Nat) (t : Option Tex)
  | draw (m : SceneModel)
deriving DecidableEq

/-- RenderLitModels (part_002 lines 405-415): bind each diffuse map to PS
slot 0 and draw ground, troll, crate. -/
def litModelCmds : List Cmd :=
  [Cmd.bindTexPS 0 (some Tex.groundDiffuse), Cmd.draw SceneModel.ground,
   Cmd.bindTexPS 0 (some Tex.trollDiffuse), Cmd.draw SceneModel.troll,
   Cmd.bindTexPS 0 (some Tex.crateDiffuse), Cmd.draw SceneModel.crate]

/-- RenderOtherModels (part_002 lines 420-458): draw the sky then the two
light models (NUM_LIGHTS = 2). -/
def otherModelCmds : List Cmd :=
  [Cmd.bindTexPS 0 (some Tex.skyDiffuse), Cmd.draw SceneModel.sky,
   Cmd.bindTexPS 0 (some Tex.lightDiffuse), Cmd.draw SceneModel.light1,
   Cmd.draw SceneModel.light2]

/-- The command trace of one RenderSceneFromCamera call (part_002 lines
477-645) in source order: water normal map to slots 1 (lines 484-485);
height pass to the water-height target (lines 504-518); refraction pass to
the refraction target with the height map bound to PS slot 2 (lines
526-547); reflection pass to the reflection target (lines 575-595);
detach of slot 2 (lines 603-604); main pass to the back buffer, binding the
refraction and reflection maps to slots 3 and 4 around the water draw and
detaching them after it (lines 612-644). -/
def renderTrace : List Cmd :=
  [Cmd.bindTexPS 1 (some Tex.waterNormalMap), Cmd.bindTexVS 1 (some Tex.waterNormalMap),
   Cmd.setTarget Buffer.waterHeight, Cmd.draw SceneModel.water,
   Cmd.setTarget Buffer.refraction, Cmd.bindTexPS 2 (some Tex.waterHeightTex)]
  ++ litModelCmds ++ otherModelCmds
  ++ [Cmd.setTarget Buffer.reflection]
  ++ litModelCmds ++ otherModelCmds
  ++ [Cmd.bindTexPS 2 none, Cmd.setTarget Buffer.backBuffer]
  ++ litModelCmds
  ++ [Cmd.bindTexPS 3 (some Tex.refractionTex), Cmd.bindTexPS 4 (some Tex.reflectionTex),
      Cmd.draw SceneModel.water, Cmd.bindTexPS 3 none, Cmd.bindTexPS 4 none]
  ++ otherModelCmds

/-- Annotate every command of a trace with the render target current when
it executes (the target set by the most recent setTarget, if any). -/
def withTargets : List Cmd → Option Buffer → List (Option Buffer × Cmd)
  | [], _ => []
  | c :: cs, t =>
    let t2 := match c with
      | Cmd.setTarget b => some b
      | _ => t
    (t2, c) :: withTargets cs t2

/-- The sequence of render targets selected by a trace, in order. -/
def targetsOf (trace : List Cmd) : List Buffer :=
  trace.filterMap fun c => match c with
    | Cmd.setTarget b => some b
    | _ => none

/-- The models drawn into a given buffer, in draw order. -/
def drawsTo (trace : List Cmd) (b : Buffer) : List SceneModel :=
  (withTargets trace none).filterMap fun x => match x with
    | (some t, Cmd.draw m) => if t = b then some m else none
    | _ => none

/-- The binding state of the GPU while replaying a trace: the current
render target and the textures bound per (stage, slot), keyed by
(isVertexStage, slot). -/
structure GpuState where
  target : Option Buffer
  bound : List ((Bool × Nat) × Tex)
deriving DecidableEq

/-- Update an association list of texture bindings for one slot. -/
def setBinding (bound : List ((Bool × Nat) × Tex)) (key : Bool × Nat)
    (t : Option Tex) : List ((Bool × Nat) × Tex) :=
  let removed := bound.filter fun p => decide (p.1 ≠ key)
  match t with
  | none => removed
  | some tex => (key, tex) :: removed

/-- Replay one command against the GPU binding state. -/
def stepGpu (s : GpuState) : Cmd → GpuState
  | Cmd.setTarget b => { s with target := some b }
  | Cmd.bindTexPS slot t => { s with bound := setBinding s.bound (false, slot) t }
  | Cmd.bindTexVS slot t => { s with bound := setBinding s.bound (true, slot) t }
  | Cmd.draw _ => s

/-- A binding state is hazard free when no buffer is simultaneously the
current render target and bound as a texture. -/
def hazardFree (s : GpuState) : Bool :=
  s.bound.all fun p =>
    match texBuffer p.2 with
    | none => true
    | some b => decide (s.target ≠ some b)

/-- All GPU binding states a trace passes through, starting from a state
with no bindings (the previous frame detached slots 2, 3 and 4; slot 0/1
file textures are rebound each frame and are never render targets). -/
def gpuStates (trace : List Cmd) : List GpuState :=
  trace.scanl stepGpu { target := none, bound := [] }

/-- The slot-2 pixel-shader binding commands of a trace, in order. -/
def slot2Binds (trace : List Cmd) : List (Option Tex) :=
  trace.filterMap fun c => match c with
    | Cmd.bindTexPS 2 t => some t
    | _ => none

/-- Whether a command is a draw. -/
def isDrawCmd : Cmd → Bool
  | Cmd.draw _ => true
  | _ => false

/-- The target-annotated commands issued before the height map is bound to
PS slot 2. -/
def beforeHeightBind : List (Option Buffer × Cmd) :=
  (withTargets renderTrace none).takeWhile
    fun x => decide (x.2 ≠ Cmd.bindTexPS 2 (some Tex.waterHeightTex))

/-- The target-annotated commands issued from the slot-2 height-map bind
onward. -/
def afterHeightBind : List (Option Buffer × Cmd) :=
  (withTargets renderTrace none).dropWhile
    fun x => decide (x.2 ≠ Cmd.bindTexPS 2 (some Tex.waterHeightTex))

/-!  C9: layout of the per-frame constant block.  Field sizes are measured
in 32-bit float units (CMatrix4x4 / float4x4 = 16, CVector3 / float3 = 3,
CVector2 / float2 = 2, float = 1). -/

/-- The fields of the C++ `PerFrameConstants` struct (src/unnamed/part_000
lines 61-89) in declaration order, with their sizes in floats. -/
def cppPerFrameFields : List (String × Nat) :=
  [("cameraMatrix", 16), ("viewMatrix", 16), ("projectionMatrix", 16),
   ("viewProjectionMatrix", 16),
   ("light1Position", 3), ("viewportWidth", 1), ("light1Colour", 3), ("viewportHeight", 1),
   ("light2Position", 3), ("padding1", 1), ("light2Colour", 3), ("padding2", 1),
   ("ambientColour", 3), ("specularPower", 1),
   ("cameraPosition", 3), ("padding3", 1),
   ("waterPlaneY", 1), ("waveScale", 1), ("waterMovement", 2)]

/-- The fields of the HLSL `PerFrameConstants` cbuffer (src/unnamed/part_001
lines 112-139) in declaration order, with their sizes in floats. -/
def hlslPerFrameFields : List (String × Nat) :=
  [("gCameraMatrix", 16), ("gViewMatrix", 16), ("gProjectionMatrix", 16),
   ("gViewProjectionMatrix", 16),
   ("gLight1Position", 3), ("gViewportWidth", 1), ("gLight1Colour", 3), ("gViewportHeight", 1),
   ("gLight2Position", 3), ("padding1", 1), ("gLight2Colour", 3), ("padding2", 1),
   ("gAmbientColour", 3), ("gSpecularPower", 1),
   ("gCameraPosition", 3), ("padding3", 1),
   ("gWaterPlaneY", 1), ("gWaveScale", 1), ("gWaterMovement", 2)]

/-- C++ struct layout: fields are packed back to back (all members are
floats or aggregates of floats, so no compiler padding is inserted).
Returns (name, offset, size) per field. -/
def cppOffsets : List (String × Nat) → Nat → List (String × Nat × Nat)
  | [], _ => []
  | (nm, n) :: rest, o => (nm, o, n) :: cppOffsets rest (o + n)

/-- HLSL cbuffer packing: data is placed in 4-float registers and a vector
may not straddle a register boundary; a field that would cross one starts
at the next register (matrices, larger than a register, start on a register
boundary). -/
def hlslAlign (o n : Nat) : Nat :=
  if 4 < n then (if o % 4 = 0 then o else o + (4 - o % 4))
  else if o % 4 + n ≤ 4 then o else o + (4 - o % 4)

/-- HLSL cbuffer layout under the packing rule above.  Returns
(name, offset, size) per field. -/
def hlslOffsets : List (String × Nat) → Nat → List (String × Nat × Nat)
  | [], _ => []
  | (nm, n) :: rest, o =>
    let o2 := hlslAlign o n
    (nm, o2, n) :: hlslOffsets rest (o2 + n)

/-- Decode a flat float block back into fields of the given sizes. -/
def decodeFields : List Nat → List ℚ → List (List ℚ)
  | [], _ => []
  | n :: ns, flat => flat.take n :: decodeFields ns (flat.drop n)

/-- A concrete all-zero per-frame field assignment (one list of floats per
field, of that field's size). -/
def perFrameZeroVals : List (List ℚ) :=
  (cppPerFrameFields.map Prod.snd).map fun n => List.replicate n 0

end Water

namespace Water

theorem saturate_mono {a b : ℚ} (h : a ≤ b) : saturate a ≤ saturate b :=
  max_le_max le_rfl (min_le_min le_rfl h)

theorem saturate_of_one_le {v : ℚ} (h : 1 ≤ v) : saturate v = 1 := by
  simp [saturate, min_eq_left h]

theorem saturate_eq_min_of_nonneg {x : ℚ} (h : 0 ≤ x) : saturate x = min x 1 := by
  rw [saturate, max_eq_right (le_min (by norm_num) h), min_comm]

theorem refractedPixelMain_some_of_nonneg (vw vh : ℚ) (heightMap : Vec2 → ℚ)
    (projectedXY : Vec2) (worldY : ℚ) (sceneColour tintColour : Vec3)
    (h : 0 ≤ objectDepthOf vw vh heightMap projectedXY worldY) :
    ∃ rgb, refractedPixelMain vw vh heightMap projectedXY worldY sceneColour tintColour
      = some (rgb, saturate (objectDepthOf vw vh heightMap projectedXY worldY / MaxDistortionDistance)) := by
  simp only [objectDepthOf] at h
  simp only [refractedPixelMain, objectDepthOf]
  rw [if_neg (not_lt.2 h)]
  exact ⟨_, rfl⟩

end Water

namespace Water

/-- Claim C1: the water-surface vertex displacement equals the
wave-height-field algorithm of the spec — four alpha samples at scales
{0.5, 1.0, 2.0, 4.0} paired with scroll speeds {0.5, 1.0, 1.7, 2.6}, summed,
times 0.25, minus 0.5, times MaxWaveHeight and waveScale, added to the
vertex Y — for every texture, UV, movement offset and waveScale. -/
theorem waterSurfaceVertexY_eq_specWaveOffset (tex : Vec2 → ℚ)
    (uv movement : Vec2) (waveScale modelY : ℚ) :
    waterSurfaceVertexY tex uv movement waveScale modelY
      = modelY + specWaveOffset tex uv movement waveScale := by
  simp only [waterSurfaceVertexY, specWaveOffset, specOctaves,
    WaterSize1, WaterSize2, WaterSize3, WaterSize4,
    WaterSpeed1, WaterSpeed2, WaterSpeed3, WaterSpeed4,
    List.map_cons, List.map_nil, List.sum_cons, List.sum_nil]
  ring

/-- Claim C2: in the refraction pixel shader, depth is the sampled water
height minus the pixel's world Y, and the pixel is discarded (no colour
written) if and only if that depth is negative; every pixel with
non-negative depth yields a written colour. -/
theorem refractedPixelMain_discard_iff (vw vh : ℚ) (heightMap : Vec2 → ℚ)
    (projectedXY : Vec2) (worldY : ℚ) (sceneColour tintColour : Vec3) :
    refractedPixelMain vw vh heightMap projectedXY worldY sceneColour tintColour = none
      ↔ objectDepthOf vw vh heightMap projectedXY worldY < 0 := by
  simp only [refractedPixelMain, objectDepthOf]
  split <;> simp_all

/-- Claim C3: the per-channel underwater darken factor
`saturate(depth / WaterExtinction)` is monotonically non-decreasing in depth
and equals 1 for a channel once depth/extinction[channel] ≥ 1; at depth 5
with extinction (9, 7, 3) the factors are (5/9, 5/7, 1), which approximate
(0.556, 0.714, 1.0) to within 0.001. -/
theorem depthDarken_monotone_saturating :
    (∀ d1 d2 : ℚ, d1 ≤ d2 →
      (depthDarken d1).x ≤ (depthDarken d2).x ∧
      (depthDarken d1).y ≤ (depthDarken d2).y ∧
      (depthDarken d1).z ≤ (depthDarken d2).z)
    ∧ (∀ d : ℚ, 1 ≤ d / WaterExtinction.x → (depthDarken d).x = 1)
    ∧ (∀ d : ℚ, 1 ≤ d / WaterExtinction.y → (depthDarken d).y = 1)
    ∧ (∀ d : ℚ, 1 ≤ d / WaterExtinction.z → (depthDarken d).z = 1)
    ∧ depthDarken 5 = ⟨5/9, 5/7, 1⟩
    ∧ |(depthDarken 5).x - 556/1000| < 1/1000
    ∧ |(depthDarken 5).y - 714/1000| < 1/1000 := by
  refine ⟨fun d1 d2 h => ?_, fun d h => saturate_of_one_le h,
    fun d h => saturate_of_one_le h, fun d h => saturate_of_one_le h,
    by norm_num [depthDarken, WaterExtinction, saturate, min_def, max_def],
    by rw [abs_sub_lt_iff]; norm_num [depthDarken, WaterExtinction, saturate, min_def, max_def],
    by rw [abs_sub_lt_iff]; norm_num [depthDarken, WaterExtinction, saturate, min_def, max_def]⟩
  exact ⟨saturate_mono ((div_le_div_iff_of_pos_right (by norm_num [WaterExtinction])).mpr h),
    saturate_mono ((div_le_div_iff_of_pos_right (by norm_num [WaterExtinction])).mpr h),
    saturate_mono ((div_le_div_iff_of_pos_right (by norm_num [WaterExtinction])).mpr h)⟩

/-- Concrete instantiation of the C3 theorem: monotone between depths 2 and
4, and saturation of the blue channel at depth 12. -/
theorem depthDarken_monotone_saturating_witness :
    ((2:ℚ) ≤ 4
      ∧ ((depthDarken 2).x ≤ (depthDarken 4).x
        ∧ (depthDarken 2).y ≤ (depthDarken 4).y
        ∧ (depthDarken 2).z ≤ (depthDarken 4).z))
    ∧ ((1:ℚ) ≤ 12 / WaterExtinction.z ∧ (depthDarken 12).z = 1) :=
  ⟨⟨by norm_num, depthDarken_monotone_saturating.1 2 4 (by norm_num)⟩,
   ⟨by norm_num [WaterExtinction], depthDarken_monotone_saturating.2.2.2.1 12
      (by norm_num [WaterExtinction])⟩⟩

/-- Claim C4: for every non-discarded refraction pixel (depth ≥ 0) the
written alpha equals min(depth / MaxDistortionDistance, 1) with
MaxDistortionDistance = 40; the alpha is 0 at the surface (depth 0), is 1 at
depths of 40 or more, and always lies in [0, 1]. -/
theorem refractedPixelMain_alpha (vw vh : ℚ) (heightMap : Vec2 → ℚ)
    (projectedXY : Vec2) (worldY : ℚ) (sceneColour tintColour : Vec3)
    (h : 0 ≤ objectDepthOf vw vh heightMap projectedXY worldY) :
    (∃ rgb, refractedPixelMain vw vh heightMap projectedXY worldY sceneColour tintColour
        = some (rgb, min (objectDepthOf vw vh heightMap projectedXY worldY / MaxDistortionDistance) 1))
    ∧ MaxDistortionDistance = 40
    ∧ (objectDepthOf vw vh heightMap projectedXY worldY = 0 →
        min (objectDepthOf vw vh heightMap projectedXY worldY / MaxDistortionDistance) 1 = 0)
    ∧ (40 ≤ objectDepthOf vw vh heightMap projectedXY worldY →
        min (objectDepthOf vw vh heightMap projectedXY worldY / MaxDistortionDistance) 1 = 1)
    ∧ 0 ≤ min (objectDepthOf vw vh heightMap projectedXY worldY / MaxDistortionDistance) 1
    ∧ min (objectDepthOf vw vh heightMap projectedXY worldY / MaxDistortionDistance) 1 ≤ 1 := by
  have h40 : (0:ℚ) < MaxDistortionDistance := by norm_num [MaxDistortionDistance]
  have hdiv : 0 ≤ objectDepthOf vw vh heightMap projectedXY worldY / MaxDistortionDistance :=
    div_nonneg h (le_of_lt h40)
  refine ⟨?_, by norm_num [MaxDistortionDistance], fun h0 => ?_, fun h40le => ?_,
    le_min hdiv (by norm_num), min_le_right _ _⟩
  · obtain ⟨rgb, hrgb⟩ := refractedPixelMain_some_of_nonneg vw vh heightMap projectedXY
      worldY sceneColour tintColour h
    exact ⟨rgb, by rw [hrgb, saturate_eq_min_of_nonneg hdiv]⟩
  · rw [h0, zero_div, min_eq_left (by norm_num)]
  · rw [min_eq_right ((one_le_div h40).mpr h40le)]

/-- Concrete instantiation of the C4 theorem at depth 50 (height map
constantly 50, pixel world Y 0). -/
theorem refractedPixelMain_alpha_witness :
    (0 ≤ objectDepthOf 1 1 (fun _ => 50) ⟨0, 0⟩ 0)
    ∧ ((∃ rgb, refractedPixelMain 1 1 (fun _ => 50) ⟨0, 0⟩ 0 ⟨0, 0, 0⟩ ⟨0, 0, 0⟩
        = some (rgb, min (objectDepthOf 1 1 (fun _ => 50) ⟨0, 0⟩ 0 / MaxDistortionDistance) 1))
      ∧ MaxDistortionDistance = 40
      ∧ (objectDepthOf 1 1 (fun _ => 50) ⟨0, 0⟩ 0 = 0 →
          min (objectDepthOf 1 1 (fun _ => 50) ⟨0, 0⟩ 0 / MaxDistortionDistance) 1 = 0)
      ∧ (40 ≤ objectDepthOf 1 1 (fun _ => 50) ⟨0, 0⟩ 0 →
          min (objectDepthOf 1 1 (fun _ => 50) ⟨0, 0⟩ 0 / MaxDistortionDistance) 1 = 1)
      ∧ 0 ≤ min (objectDepthOf 1 1 (fun _ => 50) ⟨0, 0⟩ 0 / MaxDistortionDistance) 1
      ∧ min (objectDepthOf 1 1 (fun _ => 50) ⟨0, 0⟩ 0 / MaxDistortionDistance) 1 ≤ 1) :=
  ⟨by norm_num [objectDepthOf], refractedPixelMain_alpha 1 1 (fun _ => 50) ⟨0, 0⟩ 0 ⟨0, 0, 0⟩
    ⟨0, 0, 0⟩ (by norm_num [objectDepthOf])⟩

/-- Claim C5: the camera reflection transform (negate the Y component of
each basis axis, replace position Y by 2*planeY - originalY) is an
involution: applying it twice with the same plane height returns the
original pose, for every pose and plane height. -/
theorem reflectCameraMatrix_involution (waterY : ℚ) (m : CameraPose) :
    reflectCameraMatrix waterY (reflectCameraMatrix waterY m) = m := by
  cases m with
  | mk xa ya za p =>
    cases xa
    cases ya
    cases za
    cases p
    simp [reflectCameraMatrix, negYComponent, setYComponent]

/-- Claim C6: the camera after the reflection pass completes is exactly the
camera before it began — the orchestrator saves the world matrix, mutates
only axis/position Y components of that matrix for the mirrored rendering,
and restores the saved matrix verbatim; no other camera component is
touched, for every starting camera and plane height. -/
theorem reflectionPassCameraEffect_id {A : Type} (waterY : ℚ)
    (camera : CameraState A) :
    reflectionPassCameraEffect waterY camera = camera := rfl

theorem updateWaveScale_nonneg (w : ℚ) (p m : Bool) (t : ℚ) :
    0 ≤ updateWaveScale w p m t := by
  simp only [updateWaveScale]
  split_ifs <;> linarith

/-- Claim C7: after every update step the waveScale value sent to the GPU
is ≥ 0 — for every starting accumulator value (however negative) and every
non-empty sequence of frames with any plus/minus key states and frame
times, the post-clamp accumulator is non-negative. -/
theorem runWaveScale_nonneg (init : ℚ) (frame : Bool × Bool × ℚ)
    (frames : List (Bool × Bool × ℚ)) :
    0 ≤ runWaveScale init (frame :: frames) := by
  induction frames generalizing init frame with
  | nil => exact updateWaveScale_nonneg init frame.1 frame.2.1 frame.2.2
  | cons f fs ih =>
    have hstep : runWaveScale init (frame :: f :: fs)
        = runWaveScale (updateWaveScale init frame.1 frame.2.1 frame.2.2) (f :: fs) := rfl
    rw [hstep]
    exact ih _ f

/-- Claim C8: the passes execute in the fixed order height, refraction,
reflection, composite; the height buffer is bound to texture slot 2 only
after every height-pass draw and before any refraction-pass draw; the last
slot-2 action of the frame detaches it, leaving no render-target view bound
at frame end; and at no point during the frame is a buffer simultaneously
the current render target and bound as a texture. -/
theorem renderTrace_pass_order_and_bindings :
    targetsOf renderTrace
      = [Buffer.waterHeight, Buffer.refraction, Buffer.reflection, Buffer.backBuffer]
    ∧ (beforeHeightBind.all fun x =>
        !(isDrawCmd x.2 && decide (x.1 = some Buffer.refraction))) = true
    ∧ (afterHeightBind.all fun x =>
        !(isDrawCmd x.2 && decide (x.1 = some Buffer.waterHeight))) = true
    ∧ slot2Binds renderTrace = [some Tex.waterHeightTex, none]
    ∧ (((gpuStates renderTrace).getLastD ⟨none, []⟩).bound.all fun p =>
        decide (texBuffer p.2 = none)) = true
    ∧ ((gpuStates renderTrace).all hazardFree) = true := by
  decide

/-- Claim C10: in every frame the water mesh is drawn only in the height
pass and the composite (back-buffer) pass; the refraction and reflection
passes draw exactly the non-water models (ground, troll, crate, sky and the
two lights), so those two colour buffers never receive the water surface. -/
theorem renderTrace_water_draw_passes :
    drawsTo renderTrace Buffer.waterHeight = [SceneModel.water]
    ∧ drawsTo renderTrace Buffer.refraction
      = [SceneModel.ground, SceneModel.troll, SceneModel.crate,
         SceneModel.sky, SceneModel.light1, SceneModel.light2]
    ∧ drawsTo renderTrace Buffer.reflection
      = [SceneModel.ground, SceneModel.troll, SceneModel.crate,
         SceneModel.sky, SceneModel.light1, SceneModel.light2]
    ∧ drawsTo renderTrace Buffer.backBuffer
      = [SceneModel.ground, SceneModel.troll, SceneModel.crate, SceneModel.water,
         SceneModel.sky, SceneModel.light1, SceneModel.light2] := by
  decide

theorem decodeFields_flatten (vals : List (List ℚ)) :
    decodeFields (vals.map List.length) vals.flatten = vals := by
  induction vals with
  | nil => rfl
  | cons v vs ih =>
    simp only [List.map_cons, List.flatten_cons, decodeFields,
      List.take_left, List.drop_left, ih]

/-- Claim C9: the host-side PerFrameConstants struct and the shader-side
PerFrameConstants cbuffer have identical field-by-field layout — every field
(including the explicit padding fields) has the same offset and size on both
sides under C++ contiguous packing and HLSL register packing — and decoding
an encoded per-frame block recovers every field exactly, with no collision. -/
theorem perFrameConstants_layout_roundtrip :
    ((cppOffsets cppPerFrameFields 0).map fun x => (x.2.1, x.2.2))
      = ((hlslOffsets hlslPerFrameFields 0).map fun x => (x.2.1, x.2.2))
    ∧ (∀ vals : List (List ℚ),
        vals.map List.length = cppPerFrameFields.map Prod.snd →
        decodeFields (cppPerFrameFields.map Prod.snd) vals.flatten = vals) := by
  constructor
  · decide
  · intro vals h
    rw [← h]
    exact decodeFields_flatten vals

/-- Concrete instantiation of the C9 round trip on the all-zero per-frame
field assignment. -/
theorem perFrameConstants_layout_roundtrip_witness :
    perFrameZeroVals.map List.length = cppPerFrameFields.map Prod.snd
    ∧ decodeFields (cppPerFrameFields.map Prod.snd) perFrameZeroVals.flatten
      = perFrameZeroVals :=
  ⟨by decide, perFrameConstants_layout_roundtrip.2 perFrameZeroVals (by decide)⟩

end Water
